import Mathlib

/-!
Verification of the authorization handshake driver in
`src/tdlib/examples/bot.rs` (tdlib-rs example bot).

The example drives a Telegram session through its login state machine:
it consumes `AuthorizationState` notifications from a channel and reacts
to each with the corresponding remote call. We embed the program as pure
Lean functions: remote calls become constructors of a `Call` type, the
observable behaviour of one loop iteration becomes a list of `Event`
values (calls issued, lines printed, run-flag stores), and the results
of the fallible remote calls are supplied by an `Outcome` oracle carried
alongside each delivered state. A Rust `unwrap`/`expect` on an error
(a process abort) is modelled by an `Option` result being `none`.
-/

namespace TdlibBot

/-- The `AuthorizationState` variants matched by the example. The payload
of `waitEncryptionKey` is not visible in the repository (the generated
tdlib types live outside it); modelled from the spec: the state carries
the (possibly empty) database encryption key. The example discards this
payload with a wildcard pattern. -/
inductive AuthorizationState where
  | waitTdlibParameters
  | waitEncryptionKey (key : String)
  | waitPhoneNumber
  | waitCode
  | waitOtherDeviceConfirmation
  | waitRegistration
  | waitPassword
  | ready
  | loggingOut
  | closing
  | closed
deriving DecidableEq, Repr

/-- The fields of `TdlibParameters` set (explicitly or via
`..Default::default()`) in the `WaitTdlibParameters` arm. -/
structure TdlibParameters where
  use_test_dc : Bool := false
  database_directory : String := ""
  files_directory : String := ""
  use_file_database : Bool := false
  use_chat_info_database : Bool := false
  use_message_database : Bool := false
  use_secret_chats : Bool := false
  api_id : Int := 0
  api_hash : String := ""
  system_language_code : String := ""
  device_model : String := ""
  system_version : String := ""
  application_version : String := ""
  enable_storage_optimizer : Bool := false
  ignore_file_names : Bool := false
deriving DecidableEq, Repr

/-- Compile-time environment the example reads with `env!` and
`option_env!`: API credentials, the bot token, and the optional database
passphrase `PASSWD`. -/
structure BuildEnv where
  api_id : Int
  api_hash : String
  bot_token : String
  passwd : Option String
deriving DecidableEq, Repr

/-- `option_env!("PASSWD").unwrap_or_default()`. -/
def BuildEnv.passwdOrDefault (env : BuildEnv) : String :=
  env.passwd.getD ""

/-- The `TdlibParameters` value built in the `WaitTdlibParameters` arm. -/
def botTdlibParameters (env : BuildEnv) : TdlibParameters :=
  { database_directory := "bot_db"
    api_id := env.api_id
    api_hash := env.api_hash
    system_language_code := "en"
    device_model := "Desktop"
    application_version := "0.1" }

/-- Text of a message the bot sends: `FormattedText` with default entity
list. -/
structure FormattedText where
  text : String := ""
  entities : List Unit := []
deriving DecidableEq, Repr

/-- `InputMessageText` as built in `reply`. -/
structure InputMessageText where
  text : FormattedText
  disable_web_page_preview : Bool
  clear_draft : Bool
deriving DecidableEq, Repr

/-- The one `InputMessageContent` variant the example constructs. -/
inductive InputMessageContent where
  | inputMessageText (t : InputMessageText)
deriving DecidableEq, Repr

/-- Remote calls the example issues through `tdlib::functions`. The two
`Option Unit` arguments of `sendMessage` stand for the `options` and
`reply_markup` arguments, both passed as `None`. -/
inductive Call where
  | setTdlibParameters (parameters : TdlibParameters) (client_id : Int)
  | checkAuthenticationBotToken (token : String) (client_id : Int)
  | checkDatabaseEncryptionKey (encryption_key : String) (client_id : Int)
  | setLogVerbosityLevel (new_verbosity_level : Int) (client_id : Int)
  | getMe (client_id : Int)
  | sendMessage (chat_id : Int) (message_thread_id : Int)
      (reply_to_message_id : Int) (options reply_markup : Option Unit)
      (content : InputMessageContent) (client_id : Int)
deriving DecidableEq, Repr

/-- Observable behaviour: a remote call issued, a line printed with
`println!`, or a store to the shared run flag. -/
inductive Event where
  | call (c : Call)
  | log (line : String)
  | storeRunFlag (value : Bool)
deriving DecidableEq, Repr

/-- Result of one fallible remote call, as the example sees it: `Ok` or
`Err` carrying the error message that gets printed. -/
inductive TdResult where
  | ok
  | err (message : String)
deriving DecidableEq, Repr

/-- Oracle for the remote-call results of one loop iteration:
the result of `set_tdlib_parameters` (used if the state is
`WaitTdlibParameters`), the result of `check_database_encryption_key`
(used if the state is `WaitEncryptionKey`), and for `WaitPhoneNumber`
the error messages of the failing `check_authentication_bot_token`
attempts before the first success. -/
structure Outcome where
  setParametersResult : TdResult := TdResult.ok
  encryptionKeyResult : TdResult := TdResult.ok
  botTokenErrors : List String := []
deriving DecidableEq, Repr

/-- The `WaitPhoneNumber` retry loop: issue a bot-token call; on `Err`
print the message and try again, on `Ok` break. One call per listed
error, then the final succeeding call. -/
def botTokenAttempts (env : BuildEnv) (client_id : Int) :
    List String → List Event
  | [] => [Event.call (Call.checkAuthenticationBotToken env.bot_token client_id)]
  | e :: rest =>
      Event.call (Call.checkAuthenticationBotToken env.bot_token client_id) ::
        Event.log e :: botTokenAttempts env client_id rest

/-- The events of one iteration of the `while let` loop in
`handle_authorization_state`, one source match arm per case. -/
def stepEvents (env : BuildEnv) (client_id : Int)
    (state : AuthorizationState) (o : Outcome) : List Event :=
  match state with
  | AuthorizationState.waitTdlibParameters =>
      Event.call (Call.setTdlibParameters (botTdlibParameters env) client_id) ::
        (match o.setParametersResult with
         | TdResult.ok => []
         | TdResult.err m => [Event.log m])
  | AuthorizationState.waitPhoneNumber =>
      botTokenAttempts env client_id o.botTokenErrors
  | AuthorizationState.ready => []
  | AuthorizationState.closed => [Event.storeRunFlag false]
  | AuthorizationState.closing => [Event.log "error 500"]
  | AuthorizationState.waitEncryptionKey _ =>
      Event.call (Call.checkDatabaseEncryptionKey env.passwdOrDefault client_id) ::
        (match o.encryptionKeyResult with
         | TdResult.ok => []
         | TdResult.err m => [Event.log m])
  | _ => []

/-- Whether the match arm for this state ends in `break`. -/
def breaksLoop : AuthorizationState → Bool
  | AuthorizationState.ready => true
  | AuthorizationState.closed => true
  | AuthorizationState.closing => true
  | _ => false

/-- Effect of one iteration on the shared run flag: only the `Closed`
arm stores, and it stores `false`. -/
def stepFlag (state : AuthorizationState) (flag : Bool) : Bool :=
  match state with
  | AuthorizationState.closed => false
  | _ => flag

/-- Result of one run of `handle_authorization_state`: the events it
produced, the run-flag value when it returns, and the states still
unread in the channel (the returned `auth_rx`). -/
structure DriverResult where
  trace : List Event
  runFlag : Bool
  remaining : List (AuthorizationState × Outcome)
deriving DecidableEq, Repr

/-- `handle_authorization_state`: consume delivered states in order
until a `break` (on `Ready`, `Closing` or `Closed`) or until the channel
is exhausted, producing the events of each consumed state. -/
def handle_authorization_state (env : BuildEnv) (client_id : Int) :
    List (AuthorizationState × Outcome) → Bool → DriverResult
  | [], flag => ⟨[], flag, []⟩
  | (s, o) :: rest, flag =>
      let evs := stepEvents env client_id s o
      if breaksLoop s then
        ⟨evs, stepFlag s flag, rest⟩
      else
        let r := handle_authorization_state env client_id rest (stepFlag s flag)
        ⟨evs ++ r.trace, r.runFlag, r.remaining⟩

/-- The calls among a list of events. -/
def callsOf (evs : List Event) : List Call :=
  evs.filterMap fun e =>
    match e with
    | Event.call c => some c
    | _ => none

/-- The run-flag stores among a list of events. -/
def flagStores (evs : List Event) : List Bool :=
  evs.filterMap fun e =>
    match e with
    | Event.storeRunFlag b => some b
    | _ => none

/-- The prefix of delivered states one run of the driver consumes:
everything up to and including the first state whose arm breaks. -/
def consumedStates :
    List (AuthorizationState × Outcome) → List (AuthorizationState × Outcome)
  | [] => []
  | (s, o) :: rest =>
      if breaksLoop s then [(s, o)] else (s, o) :: consumedStates rest

/-- The states one run of the driver leaves unread in the channel. -/
def unconsumed :
    List (AuthorizationState × Outcome) → List (AuthorizationState × Outcome)
  | [] => []
  | (s, _) :: rest =>
      if breaksLoop s then rest else unconsumed rest

/-- Whether the run stops by consuming a `Closed` state. -/
def stopsAtClosed : List (AuthorizationState × Outcome) → Bool
  | [] => false
  | (s, _) :: rest =>
      if s = AuthorizationState.closed then true
      else if breaksLoop s then false else stopsAtClosed rest

/-- Modelled from the spec, section 4.1: the calls the state/action
table prescribes for one received state. One set-parameters call for
`WaitTdlibParameters`, one submit-encryption-key call for
`WaitEncryptionKey`, repeated bot-token submission until success for
`WaitPhoneNumber`, and no call for the terminal and ignored states. -/
def specTableCalls (env : BuildEnv) (client_id : Int)
    (state : AuthorizationState) (o : Outcome) : List Call :=
  match state with
  | AuthorizationState.waitTdlibParameters =>
      [Call.setTdlibParameters (botTdlibParameters env) client_id]
  | AuthorizationState.waitEncryptionKey _ =>
      [Call.checkDatabaseEncryptionKey env.passwdOrDefault client_id]
  | AuthorizationState.waitPhoneNumber =>
      List.replicate (o.botTokenErrors.length + 1)
        (Call.checkAuthenticationBotToken env.bot_token client_id)
  | _ => []

/-- Result of the `get_me` call observed in `main`: the example only
reads the `first_name` field of the returned user, or the error
message. -/
inductive GetMeResult where
  | ok (first_name : String)
  | err (message : String)
deriving DecidableEq, Repr

/-- The `get_me` call in `main` and the line printed for its result. -/
def getMeEvents (r : GetMeResult) (client_id : Int) : List Event :=
  Event.call (Call.getMe client_id) ::
    (match r with
     | GetMeResult.ok first_name => [Event.log ("Hi, I\x27m " ++ first_name)]
     | GetMeResult.err m => [Event.log ("-" ++ m)])

/-- Result of `reply`: the events it produced and whether the
`expect` on the `send_message` result panicked (aborting the
process). -/
structure ReplyResult where
  events : List Event
  panicked : Bool
deriving DecidableEq, Repr

/-- `reply`: build the message content, issue `send_message`, and
`expect` the result — an error aborts the process, success prints
a confirmation line. -/
def reply (msg : String) (chat_id : Int) (reply_to_message_id : Int)
    (client_id : Int) (sendResult : TdResult) : ReplyResult :=
  let text : FormattedText := { text := msg }
  let content : InputMessageText :=
    { text := text, disable_web_page_preview := true, clear_draft := true }
  let input_message_content := InputMessageContent.inputMessageText content
  let sendCall :=
    Event.call (Call.sendMessage chat_id 0 reply_to_message_id none none
      input_message_content client_id)
  match sendResult with
  | TdResult.ok => ⟨[sendCall, Event.log "message sent"], false⟩
  | TdResult.err _ => ⟨[sendCall], true⟩

/-- Result of the sequential part of `main`: its events, the final
run-flag value, and whether an `unwrap` panicked. -/
structure MainResult where
  trace : List Event
  runFlag : Bool
  panicked : Bool
deriving DecidableEq, Repr

/-- The sequential body of `main` after the update pump is spawned:
set the log verbosity (unwrapping the result, so an error aborts),
run the handshake driver a first time on the delivered states, print
`ready`, call `get_me`, then run the driver a second time on the
channel handed back by the first run. -/
def main_run (env : BuildEnv) (client_id : Int) (verbosityResult : TdResult)
    (states : List (AuthorizationState × Outcome))
    (getMeResult : GetMeResult) : MainResult :=
  let vCall := Event.call (Call.setLogVerbosityLevel 2 client_id)
  match verbosityResult with
  | TdResult.err _ => ⟨[vCall], true, true⟩
  | TdResult.ok =>
      let r1 := handle_authorization_state env client_id states true
      let r2 := handle_authorization_state env client_id r1.remaining r1.runFlag
      ⟨vCall :: r1.trace ++ Event.log "ready" ::
          getMeEvents getMeResult client_id ++ r2.trace,
        r2.runFlag, false⟩

/-- The `Update` variants matched by `handle_update`; payload fields are
the ones the example reads (the generated tdlib types live outside the
repository). `other` stands for every variant hitting the wildcard
arm. -/
inductive Update where
  | authorizationState (authorization_state : AuthorizationState)
  | newChat (title : String)
  | supergroup (username : String)
  | user (first_name last_name username : String)
  | newMessage (chat_id : Int) (id : Int) (content : String)
  | other
deriving DecidableEq, Repr

/-- Result of `handle_update`: the states forwarded on the hand-off
channel, the events produced, and whether an `unwrap`/`expect`
panicked. -/
structure UpdateResult where
  sent : List AuthorizationState
  events : List Event
  panicked : Bool
deriving DecidableEq, Repr

/-- `handle_update`: forward authorization-state updates on the channel
(unwrapping the send result, which fails when the receiver was
dropped — modelled by `channelOpen = false`), print the fields of the
other recognised updates, and for a new message ask the user
(`userReply` is the answer) and possibly reply. -/
def handle_update (u : Update) (channelOpen : Bool) (userReply : String)
    (sendResult : TdResult) (client_id : Int) : UpdateResult :=
  match u with
  | Update.authorizationState s =>
      if channelOpen then ⟨[s], [], false⟩ else ⟨[], [], true⟩
  | Update.newChat title =>
      ⟨[], [Event.log ("chat: " ++ title)], false⟩
  | Update.supergroup username =>
      ⟨[], [Event.log ("username: " ++ username)], false⟩
  | Update.user first_name last_name username =>
      ⟨[], [Event.log ("user: " ++ (first_name ++ " " ++ last_name)),
            Event.log ("username: " ++ username)], false⟩
  | Update.newMessage chat_id id content =>
      let base := [Event.log ("message: " ++ content),
                   Event.log "Do you want to reply? if not leave empty"]
      if userReply.isEmpty then
        ⟨[], base, false⟩
      else
        let r := reply userReply chat_id id client_id sendResult
        ⟨[], base ++ r.events, r.panicked⟩
  | Update.other => ⟨[], [], false⟩

/-- Whether an update is an authorization-state update (the one kind
forwarded on the hand-off channel). -/
def isAuthStateUpdate : Update → Bool
  | Update.authorizationState _ => true
  | _ => false

/-- The six states with a dedicated match arm in the driver. -/
def handledStates : AuthorizationState → Bool
  | AuthorizationState.waitTdlibParameters => true
  | AuthorizationState.waitEncryptionKey _ => true
  | AuthorizationState.waitPhoneNumber => true
  | AuthorizationState.ready => true
  | AuthorizationState.closing => true
  | AuthorizationState.closed => true
  | _ => false

/-- A concrete build environment with no `PASSWD` set, for witnesses. -/
def env0 : BuildEnv := ⟨12345, "hash0", "token0", none⟩

/-- A concrete build environment with a non-empty `PASSWD`. -/
def envPasswd : BuildEnv := ⟨12345, "hash0", "token0", some "secret"⟩

/-- An outcome whose configuration and encryption-key calls both fail. -/
def oErr : Outcome := ⟨TdResult.err "p", TdResult.err "k", []⟩

/-! Helper lemmas shared by the claim theorems. -/

theorem callsOf_call_cons (c : Call) (l : List Event) :
    callsOf (Event.call c :: l) = c :: callsOf l := rfl

theorem callsOf_log_cons (s : String) (l : List Event) :
    callsOf (Event.log s :: l) = callsOf l := rfl

theorem callsOf_store_cons (b : Bool) (l : List Event) :
    callsOf (Event.storeRunFlag b :: l) = callsOf l := rfl

theorem callsOf_append (a b : List Event) :
    callsOf (a ++ b) = callsOf a ++ callsOf b := by
  simp [callsOf, List.filterMap_append]

theorem flagStores_call_cons (c : Call) (l : List Event) :
    flagStores (Event.call c :: l) = flagStores l := rfl

theorem flagStores_log_cons (s : String) (l : List Event) :
    flagStores (Event.log s :: l) = flagStores l := rfl

theorem flagStores_store_cons (b : Bool) (l : List Event) :
    flagStores (Event.storeRunFlag b :: l) = b :: flagStores l := rfl

theorem flagStores_append (a b : List Event) :
    flagStores (a ++ b) = flagStores a ++ flagStores b := by
  simp [flagStores, List.filterMap_append]

theorem consumed_append_unconsumed (input : List (AuthorizationState × Outcome)) :
    consumedStates input ++ unconsumed input = input := by
  induction input with
  | nil => rfl
  | cons p rest ih =>
      obtain ⟨s, o⟩ := p
      cases hb : breaksLoop s <;> simp [consumedStates, unconsumed, hb, ih]

/-- Unfolding of one whole run of the driver: it consumes exactly the
prefix up to the first breaking state, produces the events of the
consumed states in order, clears the flag exactly when it stops at
`Closed`, and hands the unread states back. -/
theorem handle_authorization_state_eq (env : BuildEnv) (client_id : Int)
    (input : List (AuthorizationState × Outcome)) (flag : Bool) :
    handle_authorization_state env client_id input flag =
      ⟨(consumedStates input).flatMap fun p => stepEvents env client_id p.1 p.2,
        flag && !(stopsAtClosed input), unconsumed input⟩ := by
  induction input generalizing flag with
  | nil => simp [handle_authorization_state, consumedStates, unconsumed, stopsAtClosed]
  | cons p rest ih =>
      obtain ⟨s, o⟩ := p
      cases s <;>
        simp [handle_authorization_state, consumedStates, unconsumed, stopsAtClosed,
          breaksLoop, stepFlag, ih, List.flatMap_cons]

theorem callsOf_botTokenAttempts (env : BuildEnv) (client_id : Int)
    (errors : List String) :
    callsOf (botTokenAttempts env client_id errors) =
      List.replicate (errors.length + 1)
        (Call.checkAuthenticationBotToken env.bot_token client_id) := by
  induction errors with
  | nil => rfl
  | cons e rest ih =>
      simp [botTokenAttempts, callsOf_call_cons, callsOf_log_cons, ih,
        List.replicate_succ]

theorem flagStores_botTokenAttempts (env : BuildEnv) (client_id : Int)
    (errors : List String) :
    flagStores (botTokenAttempts env client_id errors) = [] := by
  induction errors with
  | nil => rfl
  | cons e rest ih =>
      simp [botTokenAttempts, flagStores_call_cons, flagStores_log_cons, ih]

/-- Per state, the calls the embedded driver issues are exactly the
calls of the spec table in section 4.1. -/
theorem callsOf_stepEvents (env : BuildEnv) (client_id : Int)
    (s : AuthorizationState) (o : Outcome) :
    callsOf (stepEvents env client_id s o) = specTableCalls env client_id s o := by
  obtain ⟨sp, ek, bte⟩ := o
  cases s with
  | waitTdlibParameters => cases sp <;> rfl
  | waitEncryptionKey key => cases ek <;> rfl
  | waitPhoneNumber => exact callsOf_botTokenAttempts env client_id bte
  | waitCode => rfl
  | waitOtherDeviceConfirmation => rfl
  | waitRegistration => rfl
  | waitPassword => rfl
  | ready => rfl
  | loggingOut => rfl
  | closing => rfl
  | closed => rfl

theorem flagStores_stepEvents (env : BuildEnv) (client_id : Int)
    (s : AuthorizationState) (o : Outcome) :
    flagStores (stepEvents env client_id s o) =
      (if s = AuthorizationState.closed then [false] else []) := by
  obtain ⟨sp, ek, bte⟩ := o
  cases s with
  | waitTdlibParameters => cases sp <;> rfl
  | waitEncryptionKey key => cases ek <;> rfl
  | waitPhoneNumber => simpa using flagStores_botTokenAttempts env client_id bte
  | waitCode => rfl
  | waitOtherDeviceConfirmation => rfl
  | waitRegistration => rfl
  | waitPassword => rfl
  | ready => rfl
  | loggingOut => rfl
  | closing => rfl
  | closed => rfl

theorem callsOf_handle (env : BuildEnv) (client_id : Int)
    (input : List (AuthorizationState × Outcome)) (flag : Bool) :
    callsOf (handle_authorization_state env client_id input flag).trace =
      (consumedStates input).flatMap fun p => specTableCalls env client_id p.1 p.2 := by
  rw [handle_authorization_state_eq]
  show callsOf ((consumedStates input).flatMap fun p => stepEvents env client_id p.1 p.2) = _
  generalize consumedStates input = l
  induction l with
  | nil => rfl
  | cons p rest ih =>
      simp [List.flatMap_cons, callsOf_append, callsOf_stepEvents, ih]

theorem flagStores_handle (env : BuildEnv) (client_id : Int)
    (input : List (AuthorizationState × Outcome)) (flag : Bool) :
    flagStores (handle_authorization_state env client_id input flag).trace =
      (if stopsAtClosed input then [false] else []) := by
  rw [handle_authorization_state_eq]
  show flagStores ((consumedStates input).flatMap fun p => stepEvents env client_id p.1 p.2) = _
  induction input with
  | nil => rfl
  | cons p rest ih =>
      obtain ⟨s, o⟩ := p
      cases s <;>
        simp [consumedStates, stopsAtClosed, breaksLoop, List.flatMap_cons,
          flagStores_append, flagStores_stepEvents, ih]

/-- Every run-flag store in the whole sequential main body (verbosity
call succeeding, both driver passes, the get-me step) stores `false`;
the flag is never stored `true`. -/
theorem main_run_never_stores_true (env : BuildEnv) (client_id : Int)
    (input : List (AuthorizationState × Outcome)) (getMeResult : GetMeResult) :
    ((flagStores (main_run env client_id TdResult.ok input getMeResult).trace).all
      fun b => !b) = true := by
  cases getMeResult <;>
    simp [main_run, getMeEvents, flagStores_call_cons, flagStores_log_cons,
      flagStores_append, flagStores_handle, List.all_append]

/-- Claim C1: over any delivered sequence of states, the driver issues
exactly the calls of the spec table of section 4.1 for each consumed
state, in order: one set-parameters call for WaitTdlibParameters, one
submit-encryption-key call for WaitEncryptionKey, one bot-token call
per failed attempt plus the succeeding one for WaitPhoneNumber, and no
call for any other state; so at most one call per state except
WaitPhoneNumber. -/
theorem calls_match_spec_table (env : BuildEnv) (client_id : Int)
    (input : List (AuthorizationState × Outcome)) (flag : Bool) :
    callsOf (handle_authorization_state env client_id input flag).trace =
      ((consumedStates input).flatMap fun p =>
        specTableCalls env client_id p.1 p.2) ∧
    ∀ (s : AuthorizationState) (o : Outcome),
      (specTableCalls env client_id s o).length ≤
        (if s = AuthorizationState.waitPhoneNumber then
          o.botTokenErrors.length + 1 else 1) := by
  refine ⟨callsOf_handle env client_id input flag, fun s o => ?_⟩
  cases s <;> simp [specTableCalls]

/-- Claim C2 counterexample: with the build variable PASSWD set to a
non-empty passphrase, on receiving WaitEncryptionKey carrying the empty
key the driver submits that passphrase, not the empty key carried by
the state: the one call issued is not submit-encryption-key(""). -/
theorem encryption_key_from_passwd_counterexample :
    callsOf (handle_authorization_state envPasswd 7
        [(AuthorizationState.waitEncryptionKey "", {})] true).trace =
      [Call.checkDatabaseEncryptionKey "secret" 7] ∧
    Call.checkDatabaseEncryptionKey "secret" 7 ≠
      Call.checkDatabaseEncryptionKey "" 7 := by
  refine ⟨rfl, ?_⟩
  decide

/-- Claim C2 amended: on receiving WaitEncryptionKey the driver emits
exactly one submit-encryption-key call, whose key argument is the PASSWD
build variable (the empty string when it is unset); the key carried by
the state is ignored. In particular the submitted key is "" exactly
when PASSWD is unset or empty, regardless of the state payload. -/
theorem wait_encryption_key_submits_passwd (env : BuildEnv) (client_id : Int)
    (key : String) (o : Outcome) (rest : List (AuthorizationState × Outcome))
    (flag : Bool) :
    callsOf (handle_authorization_state env client_id
        ((AuthorizationState.waitEncryptionKey key, o) :: rest) flag).trace =
      Call.checkDatabaseEncryptionKey env.passwdOrDefault client_id ::
        callsOf (handle_authorization_state env client_id rest flag).trace := by
  simp [callsOf_handle, consumedStates, breaksLoop, List.flatMap_cons,
    specTableCalls]

/-- Claim C3: on receiving WaitPhoneNumber with n failing bot-token
submissions before the first success, the driver issues exactly n + 1
bot-token calls and then resumes with the remaining notifications; in
particular 3 failures give exactly 4 calls. -/
theorem wait_phone_number_retries_until_success (env : BuildEnv)
    (client_id : Int) (o : Outcome)
    (rest : List (AuthorizationState × Outcome)) (flag : Bool) :
    callsOf (handle_authorization_state env client_id
        ((AuthorizationState.waitPhoneNumber, o) :: rest) flag).trace =
      List.replicate (o.botTokenErrors.length + 1)
        (Call.checkAuthenticationBotToken env.bot_token client_id) ++
        callsOf (handle_authorization_state env client_id rest flag).trace ∧
    (callsOf (handle_authorization_state env0 7
        [(AuthorizationState.waitPhoneNumber,
          { botTokenErrors := ["e1", "e2", "e3"] })] true).trace).length = 4 := by
  refine ⟨?_, rfl⟩
  simp [callsOf_handle, consumedStates, breaksLoop, List.flatMap_cons,
    specTableCalls]

/-- Claim C4: a driver run stores `false` to the run flag exactly once
when it stops at Closed and performs no store otherwise; its final flag
is the initial one cleared exactly when Closed was reached; and over
the whole main body (which starts the flag at true) no store ever
writes `true`, so the flag is never reset. -/
theorem closed_clears_run_flag_once (env : BuildEnv) (client_id : Int)
    (input : List (AuthorizationState × Outcome)) (flag : Bool)
    (getMeResult : GetMeResult) :
    flagStores (handle_authorization_state env client_id input flag).trace =
      (if stopsAtClosed input then [false] else []) ∧
    (handle_authorization_state env client_id input flag).runFlag =
      (flag && !(stopsAtClosed input)) ∧
    ((flagStores (main_run env client_id TdResult.ok input getMeResult).trace).all
      fun b => !b) = true := by
  refine ⟨flagStores_handle env client_id input flag, ?_,
    main_run_never_stores_true env client_id input getMeResult⟩
  rw [handle_authorization_state_eq]

/-- Claim C5: receiving Ready terminates the driver loop with no event
at all (no further call, no log, no flag store), the run flag unchanged,
and the rest of the channel handed back unread. -/
theorem ready_exits_loop_without_calls (env : BuildEnv) (client_id : Int)
    (o : Outcome) (rest : List (AuthorizationState × Outcome)) (flag : Bool) :
    handle_authorization_state env client_id
        ((AuthorizationState.ready, o) :: rest) flag =
      ⟨[], flag, rest⟩ := rfl

/-- Claim C6: a state outside the six with a dedicated match arm is a
no-op: processing it issues no event and changes nothing, the run
continues on the remaining notifications exactly as if the state had
not been delivered. -/
theorem unrecognized_state_is_noop (env : BuildEnv) (client_id : Int)
    (s : AuthorizationState) (o : Outcome)
    (rest : List (AuthorizationState × Outcome)) (flag : Bool)
    (h : handledStates s = false) :
    handle_authorization_state env client_id ((s, o) :: rest) flag =
      handle_authorization_state env client_id rest flag := by
  cases s <;> first | rfl | simp [handledStates] at h

/-- Witness for claim C6 at the concrete state WaitCode. -/
theorem unrecognized_state_is_noop_witness :
    handledStates AuthorizationState.waitCode = false ∧
    handle_authorization_state env0 7 [(AuthorizationState.waitCode, {})] true =
      handle_authorization_state env0 7 [] true :=
  ⟨rfl, unrecognized_state_is_noop env0 7 AuthorizationState.waitCode {} [] true rfl⟩

/-- Claim C7: when the set-parameters call or the submit-encryption-key
call fails, the driver issues exactly that one call, logs the error
message, does not retry, does not terminate, and goes on processing the
remaining notifications; the error does not escape the driver. -/
theorem invoker_error_logged_loop_continues (env : BuildEnv) (client_id : Int)
    (key : String) (o : Outcome) (rest : List (AuthorizationState × Outcome))
    (flag : Bool) (m1 m2 : String)
    (h1 : o.setParametersResult = TdResult.err m1)
    (h2 : o.encryptionKeyResult = TdResult.err m2) :
    handle_authorization_state env client_id
        ((AuthorizationState.waitTdlibParameters, o) :: rest) flag =
      (let r := handle_authorization_state env client_id rest flag
       ⟨Event.call (Call.setTdlibParameters (botTdlibParameters env) client_id) ::
          Event.log m1 :: r.trace, r.runFlag, r.remaining⟩) ∧
    handle_authorization_state env client_id
        ((AuthorizationState.waitEncryptionKey key, o) :: rest) flag =
      (let r := handle_authorization_state env client_id rest flag
       ⟨Event.call (Call.checkDatabaseEncryptionKey env.passwdOrDefault client_id) ::
          Event.log m2 :: r.trace, r.runFlag, r.remaining⟩) := by
  constructor <;>
    simp [handle_authorization_state, stepEvents, breaksLoop, stepFlag, h1, h2]

/-- Witness for claim C7: both calls fail concretely, the error lines
are logged and the run ends having consumed the one notification. -/
theorem invoker_error_logged_loop_continues_witness :
    oErr.setParametersResult = TdResult.err "p" ∧
    oErr.encryptionKeyResult = TdResult.err "k" ∧
    (handle_authorization_state env0 7
        [(AuthorizationState.waitTdlibParameters, oErr)] true =
      (let r := handle_authorization_state env0 7 [] true
       ⟨Event.call (Call.setTdlibParameters (botTdlibParameters env0) 7) ::
          Event.log "p" :: r.trace, r.runFlag, r.remaining⟩) ∧
     handle_authorization_state env0 7
        [(AuthorizationState.waitEncryptionKey "", oErr)] true =
      (let r := handle_authorization_state env0 7 [] true
       ⟨Event.call (Call.checkDatabaseEncryptionKey env0.passwdOrDefault 7) ::
          Event.log "k" :: r.trace, r.runFlag, r.remaining⟩)) :=
  ⟨rfl, rfl,
    invoker_error_logged_loop_continues env0 7 "" oErr [] true "p" "k" rfl rfl⟩

/-- Claim C8: a failing verbosity-configuration call makes the main body
panic immediately after issuing it (nothing else runs), and a failing
send-message call makes reply panic right after issuing the send (no
confirmation line, no recovery). -/
theorem fatal_unwrap_aborts (env : BuildEnv) (client_id : Int)
    (states : List (AuthorizationState × Outcome)) (getMeResult : GetMeResult)
    (vr sr : TdResult) (m1 m2 msg : String) (chat_id reply_to : Int)
    (h1 : vr = TdResult.err m1) (h2 : sr = TdResult.err m2) :
    main_run env client_id vr states getMeResult =
      ⟨[Event.call (Call.setLogVerbosityLevel 2 client_id)], true, true⟩ ∧
    reply msg chat_id reply_to client_id sr =
      ⟨[Event.call (Call.sendMessage chat_id 0 reply_to none none
          (InputMessageContent.inputMessageText
            { text := { text := msg }, disable_web_page_preview := true,
              clear_draft := true }) client_id)], true⟩ := by
  subst h1 h2
  exact ⟨rfl, rfl⟩

/-- Witness for claim C8 at concrete error messages and arguments. -/
theorem fatal_unwrap_aborts_witness :
    (TdResult.err "v" : TdResult) = TdResult.err "v" ∧
    (TdResult.err "s" : TdResult) = TdResult.err "s" ∧
    (main_run env0 7 (TdResult.err "v") [] (GetMeResult.err "x") =
      ⟨[Event.call (Call.setLogVerbosityLevel 2 7)], true, true⟩ ∧
     reply "hi" 1 2 7 (TdResult.err "s") =
      ⟨[Event.call (Call.sendMessage 1 0 2 none none
          (InputMessageContent.inputMessageText
            { text := { text := "hi" }, disable_web_page_preview := true,
              clear_draft := true }) 7)], true⟩) :=
  ⟨rfl, rfl,
    fatal_unwrap_aborts env0 7 [] (GetMeResult.err "x") (TdResult.err "v")
      (TdResult.err "s") "v" "s" "hi" 1 2 rfl rfl⟩

/-- Claim C9: the driver processes notifications strictly in arrival
order and drops none: its event trace is the in-order concatenation of
the events of each consumed state, the states it consumes are exactly
the input prefix through the first terminal state, and everything after
that prefix is handed back unread. -/
theorem notifications_processed_in_order (env : BuildEnv) (client_id : Int)
    (input : List (AuthorizationState × Outcome)) (flag : Bool) :
    (handle_authorization_state env client_id input flag).trace =
      ((consumedStates input).flatMap fun p =>
        stepEvents env client_id p.1 p.2) ∧
    (handle_authorization_state env client_id input flag).remaining =
      unconsumed input ∧
    consumedStates input ++ unconsumed input = input := by
  rw [handle_authorization_state_eq]
  exact ⟨rfl, rfl, consumed_append_unconsumed input⟩

/-- Claim C10: when the hand-off receiver has been dropped, an
authorization-state update makes the dispatcher panic on the unwrapped
send result, forwarding nothing and logging nothing; and no update of
any other kind ever sends anything on the channel. -/
theorem dispatcher_send_unwrap_panics (s : AuthorizationState) (u : Update)
    (channelOpen : Bool) (userReply : String) (sendResult : TdResult)
    (client_id : Int) (h : isAuthStateUpdate u = false) :
    handle_update (Update.authorizationState s) false userReply sendResult
        client_id = ⟨[], [], true⟩ ∧
    (handle_update u channelOpen userReply sendResult client_id).sent = [] := by
  refine ⟨rfl, ?_⟩
  cases u with
  | authorizationState s2 => simp [isAuthStateUpdate] at h
  | newChat title => rfl
  | supergroup username => rfl
  | user a b c => rfl
  | newMessage chat_id id content =>
      cases hue : userReply.isEmpty <;> simp [handle_update, hue]
  | other => rfl

/-- Witness for claim C10 at a concrete non-authorization update. -/
theorem dispatcher_send_unwrap_panics_witness :
    isAuthStateUpdate (Update.newChat "c") = false ∧
    (handle_update (Update.authorizationState AuthorizationState.ready) false ""
        TdResult.ok 7 = ⟨[], [], true⟩ ∧
     (handle_update (Update.newChat "c") true "" TdResult.ok 7).sent = []) :=
  ⟨rfl, dispatcher_send_unwrap_panics AuthorizationState.ready
    (Update.newChat "c") true "" TdResult.ok 7 rfl⟩

end TdlibBot
